import Mathlib

/-!
Shallow embedding of the osm/smhi forecast client (Go).

The repository's core is `toPointForecast` (smhi.go), which converts the
wire structure `PointForecastAPI` (decoded from the SMHI JSON payload)
into the domain structure `PointForecast`, together with the two static
description tables `getPrecipitationCategoryDescriptions` and
`getWeatherSymbolDescription`.

Numbers on the wire are Go `float64`; they are modelled as `Rat`.
Go's narrowing conversions `uint8(float64)` / `int8(float64)` first
truncate toward zero and then keep the low 8 bits (two's complement),
modelled by `goUint8` / `goInt8`.  Go maps `map[string]string` are
modelled as association lists in insertion order.
-/

namespace Smhi

/-- The result of Go's `time.Parse`: a calendar timestamp with
nanoseconds and an explicit UTC-offset (in minutes). The Go zero
`time.Time` is `zeroGoTime`. -/
structure GoTime where
  year : Nat
  month : Nat
  day : Nat
  hour : Nat
  minute : Nat
  second : Nat
  nanos : Nat
  offsetMinutes : Int
deriving DecidableEq, Repr

/-- Go's zero `time.Time`: January 1, year 1, 00:00:00 UTC. -/
def zeroGoTime : GoTime :=
  { year := 1, month := 1, day := 1, hour := 0, minute := 0, second := 0,
    nanos := 0, offsetMinutes := 0 }

def digitVal (c : Char) : Option Nat :=
  if c.isDigit then some (c.toNat - 48) else none

def read2 : List Char → Option (Nat × List Char)
  | c1 :: c2 :: rest =>
    match digitVal c1, digitVal c2 with
    | some d1, some d2 => some (d1 * 10 + d2, rest)
    | _, _ => none
  | _ => none

def read4 (cs : List Char) : Option (Nat × List Char) :=
  match read2 cs with
  | some (hi, rest) =>
    match read2 rest with
    | some (lo, rest2) => some (hi * 100 + lo, rest2)
    | none => none
  | none => none

def expectChar (c : Char) : List Char → Option (List Char)
  | x :: rest => if x = c then some rest else none
  | [] => none

def isLeapYear (y : Nat) : Bool :=
  y % 4 == 0 && (y % 100 != 0 || y % 400 == 0)

def daysInMonth (y m : Nat) : Nat :=
  if m = 2 then (if isLeapYear y then 29 else 28)
  else if m = 4 ∨ m = 6 ∨ m = 9 ∨ m = 11 then 30
  else 31

def takeDigits : List Char → (List Nat × List Char)
  | c :: rest =>
    match digitVal c with
    | some d =>
      let (ds, r) := takeDigits rest
      (d :: ds, r)
    | none => ([], c :: rest)
  | [] => ([], [])

/-- Nanoseconds denoted by a fraction-digit list: the first nine digits,
right-padded with zeros (further digits are truncated away). -/
def nanosOfDigits (ds : List Nat) : Nat :=
  ((ds.take 9) ++ List.replicate (9 - ds.length) 0).foldl (fun a d => a * 10 + d) 0

/-- UTC-offset designator: `Z`, or `±hh:mm`, as minutes east of UTC. -/
def readOffset (cs : List Char) : Option Int :=
  match cs with
  | ['Z'] => some 0
  | sign :: rest =>
    if sign = '+' ∨ sign = '-' then
      match read2 rest with
      | some (oh, rest2) =>
        match rest2 with
        | ':' :: rest3 =>
          match read2 rest3 with
          | some (om, []) =>
            if oh ≤ 23 ∧ om ≤ 59 then
              some (if sign = '-' then -(oh * 60 + om : Int) else (oh * 60 + om : Int))
            else none
          | _ => none
        | _ => none
      | none => none
    else none
  | [] => none

/-- Modelled from the spec: timestamp parsing is delegated to the Go
standard library (`time.Parse` with the `time.RFC3339` layout
`2006-01-02T15:04:05Z07:00`), which is not part of this repository's
sources.  The spec describes it as "a valid timestamp in the expected
format (a profile of a standard date-time format with an explicit
UTC-offset designator)": `yyyy-mm-ddThh:mm:ss`, an optional fraction
of a second, and `Z` or `±hh:mm`, with calendar range checks
(month 1–12, day valid for the month and leap year, hour ≤ 23,
minute ≤ 59, second ≤ 59).  Failure yields `none` (Go: a non-nil
error together with the zero `time.Time`). -/
def parseRFC3339 (s : String) : Option GoTime := do
  let (y, r1) ← read4 s.data
  let r2 ← expectChar '-' r1
  let (mo, r3) ← read2 r2
  let r4 ← expectChar '-' r3
  let (d, r5) ← read2 r4
  let r6 ← expectChar 'T' r5
  let (h, r7) ← read2 r6
  let r8 ← expectChar ':' r7
  let (mi, r9) ← read2 r8
  let r10 ← expectChar ':' r9
  let (se, r11) ← read2 r10
  let (ns, r12) ←
    match r11 with
    | '.' :: rest =>
      match takeDigits rest with
      | ([], _) => none
      | (ds, r) => some (nanosOfDigits ds, r)
    | other => some (0, other)
  let off ← readOffset r12
  if 1 ≤ mo ∧ mo ≤ 12 ∧ 1 ≤ d ∧ d ≤ daysInMonth y mo ∧ h ≤ 23 ∧ mi ≤ 59 ∧ se ≤ 59 then
    some { year := y, month := mo, day := d, hour := h, minute := mi,
           second := se, nanos := ns, offsetMinutes := off }
  else
    none

/-- Truncation of a rational toward zero, the first step of Go's
float-to-integer conversions (`Int.tdiv` rounds toward zero). -/
def ratTrunc (q : Rat) : Int :=
  q.num.tdiv (q.den : Int)

/-- Go's `uint8(v)` for a `float64` value: truncate toward zero, then
keep the low 8 bits (wraparound modulo 2^8). -/
def goUint8 (q : Rat) : Nat :=
  ((ratTrunc q).emod 256).toNat

/-- Go's `int8(v)` for a `float64` value: truncate toward zero, then
keep the low 8 bits, read as two's complement. -/
def goInt8 (q : Rat) : Int :=
  ((ratTrunc q) + 128).emod 256 - 128

/-- Modelled from the spec: the wire geometry (`geometry` object of the
payload), whose Go struct definition is in a source file not present
here; the spec gives it as a type tag plus an ordered sequence of
coordinate pairs. -/
structure Geometry where
  type : String
  coordinates : List (List Rat)
deriving DecidableEq, Repr

/-- Modelled from the spec: `RawParameter` — `name` (short code),
`unit` (unused by the mapper), `values` (sequence of numbers; only the
first element is ever consulted). -/
structure ParameterAPI where
  name : String
  unit : String
  values : List Rat
deriving DecidableEq, Repr

/-- Modelled from the spec: `RawTimeSeriesEntry` — `validTime`
(timestamp string) and the parameter sequence. -/
structure TimeSeriesAPI where
  validTime : String
  parameters : List ParameterAPI
deriving DecidableEq, Repr

/-- Modelled from the spec: `RawForecastResponse` (Go
`PointForecastAPI`) — `approvedTime`, `referenceTime` (timestamp
strings), geometry, and the ordered `timeSeries`. -/
structure PointForecastAPI where
  approvedTime : String
  referenceTime : String
  geometry : Geometry
  timeSeries : List TimeSeriesAPI
deriving DecidableEq, Repr

/-- Modelled from the spec: the precipitation-category enumeration
(integer codes 0–6) is declared in a source file not present here; the
Go code converts the wire float to it directly, so it is modelled as an
integer. -/
abbrev PrecipitationCategory := Int

def NoPrecipitation : PrecipitationCategory := 0
def Snow : PrecipitationCategory := 1
def SnowAndRain : PrecipitationCategory := 2
def Rain : PrecipitationCategory := 3
def Drizzle : PrecipitationCategory := 4
def FreezingRain : PrecipitationCategory := 5
def FreezingDrizzle : PrecipitationCategory := 6

/-- Modelled from the spec: the weather-symbol enumeration (integer
codes 1–27, 1 = clear sky, 27 = heavy snowfall) is declared in a source
file not present here; modelled as an integer. -/
abbrev WeatherSymbol := Int

def ClearSky : WeatherSymbol := 1
def NearlyClearSky : WeatherSymbol := 2
def VariableCloudiness : WeatherSymbol := 3
def HalfclearSky : WeatherSymbol := 4
def CloudySky : WeatherSymbol := 5
def Overcast : WeatherSymbol := 6
def Fog : WeatherSymbol := 7
def LightRainShowers : WeatherSymbol := 8
def ModerateRainShowers : WeatherSymbol := 9
def HeavyRainShowers : WeatherSymbol := 10
def Thunderstorm : WeatherSymbol := 11
def LightSleetShowers : WeatherSymbol := 12
def ModerateSleetShowers : WeatherSymbol := 13
def HeavySleetShowers : WeatherSymbol := 14
def LightSnowShowers : WeatherSymbol := 15
def ModerateSnowShowers : WeatherSymbol := 16
def HeavySnowShowers : WeatherSymbol := 17
def LightRain : WeatherSymbol := 18
def ModerateRain : WeatherSymbol := 19
def HeavyRain : WeatherSymbol := 20
def Thunder : WeatherSymbol := 21
def LightSleet : WeatherSymbol := 22
def ModerateSleet : WeatherSymbol := 23
def HeavySleet : WeatherSymbol := 24
def LightSnowfall : WeatherSymbol := 25
def ModerateSnowfall : WeatherSymbol := 26
def HeavySnowfall : WeatherSymbol := 27

/-- The per-timestamp domain record (Go `Forecast`).  Narrow integer
fields carry the wrapped conversion results (`uint8` as a `Nat` below
256, `int8` as an `Int` in [-128,127]); description maps are
association lists in insertion order. -/
structure Forecast where
  timestamp : GoTime
  airPressure : Rat
  airTemperature : Rat
  horizontalVisibility : Rat
  windDirection : Nat
  windSpeed : Rat
  relativeHumidity : Nat
  thunderProbability : Nat
  meanValueOfTotalCloudCover : Nat
  meanValueOfLowLevelCloudCover : Nat
  meanValueOfMediumLevelCloudCover : Nat
  meanValueOfHighLevelCloudCover : Nat
  windGustSpeed : Rat
  minimumPrecipitationIntensity : Rat
  maximumPrecipitationIntensity : Rat
  percentOfPrecipitationInFrozenForm : Int
  precipitationCategory : PrecipitationCategory
  precipitationCategoryDescription : List (String × String)
  meanPrecipitationIntensity : Rat
  medianPrecipitationIntensity : Rat
  weatherSymbol : WeatherSymbol
  weatherSymbolDescription : List (String × String)
deriving DecidableEq, Repr

/-- Go's `var f Forecast`: every field at its zero value (nil maps are
empty association lists). -/
def zeroForecast : Forecast :=
  { timestamp := zeroGoTime, airPressure := 0, airTemperature := 0,
    horizontalVisibility := 0, windDirection := 0, windSpeed := 0,
    relativeHumidity := 0, thunderProbability := 0,
    meanValueOfTotalCloudCover := 0, meanValueOfLowLevelCloudCover := 0,
    meanValueOfMediumLevelCloudCover := 0, meanValueOfHighLevelCloudCover := 0,
    windGustSpeed := 0, minimumPrecipitationIntensity := 0,
    maximumPrecipitationIntensity := 0, percentOfPrecipitationInFrozenForm := 0,
    precipitationCategory := 0, precipitationCategoryDescription := [],
    meanPrecipitationIntensity := 0, medianPrecipitationIntensity := 0,
    weatherSymbol := 0, weatherSymbolDescription := [] }

/-- The top-level domain object (Go `PointForecast`). -/
structure PointForecast where
  approvedTime : GoTime
  referenceTime : GoTime
  geometry : Geometry
  timeSeries : List Forecast
deriving DecidableEq, Repr

/-- The abnormal outcomes of `toPointForecast`: the error return of a
failed `time.Parse`, or the runtime panic of indexing `p.Values[0]` on
an empty slice. -/
inductive MapErr where
  | timeParse (input : String)
  | panicIndexOutOfRange
deriving DecidableEq, Repr

/-- Go `p.Values[0]`: the head of the values slice, or an
index-out-of-range panic when it is empty. -/
def values0 (p : ParameterAPI) : Except MapErr Rat :=
  match p.values with
  | [] => .error .panicIndexOutOfRange
  | v :: _ => .ok v

/-- getPrecipitationCategoryDescriptions returns a friendly
precipitation category description (smhi.go): a switch over the
category constants building a two-entry map, empty when no case
matches. -/
def getPrecipitationCategoryDescriptions (pc : Int) : List (String × String) :=
  if pc = NoPrecipitation then [("sv-SE", "Ingen nederbörd"), ("en-US", "No precipitation")]
  else if pc = Snow then [("sv-SE", "Snö"), ("en-US", "Snow")]
  else if pc = SnowAndRain then [("sv-SE", "Snö och regn"), ("en-US", "Snow and rain")]
  else if pc = Rain then [("sv-SE", "Regn"), ("en-US", "Rain")]
  else if pc = Drizzle then [("sv-SE", "Duggregn"), ("en-US", "Drizzle")]
  else if pc = FreezingRain then [("sv-SE", "Frysande regn"), ("en-US", "Freezing rain")]
  else if pc = FreezingDrizzle then [("sv-SE", "Underkylt regn"), ("en-US", "Freezing drizzle")]
  else []

/-- getWeatherSymbolDescription returns a friendly weather symbol
description (smhi.go): a switch over the symbol constants building a
two-entry map, empty when no case matches. -/
def getWeatherSymbolDescription (ws : Int) : List (String × String) :=
  if ws = ClearSky then [("sv-SE", "Klar himmel"), ("en-US", "Clear sky")]
  else if ws = NearlyClearSky then [("sv-SE", "Nästan klar himmel"), ("en-US", "Nearly clear sky")]
  else if ws = VariableCloudiness then [("sv-SE", "Växlande molnighet"), ("en-US", "Variable cloudiness")]
  else if ws = HalfclearSky then [("sv-SE", "Halvklar himmel"), ("en-US", "Halfclear sky")]
  else if ws = CloudySky then [("sv-SE", "Molnig himmel"), ("en-US", "Cloudy sky")]
  else if ws = Overcast then [("sv-SE", "Mulet"), ("en-US", "Overcast")]
  else if ws = Fog then [("sv-SE", "Dimma"), ("en-US", "Fog")]
  else if ws = LightRainShowers then [("sv-SE", "Lätta regnskurar"), ("en-US", "Light rain showers")]
  else if ws = ModerateRainShowers then [("sv-SE", "Måttliga regnskurar"), ("en-US", "Moderate rain showers")]
  else if ws = HeavyRainShowers then [("sv-SE", "Kraftiga regnskurar"), ("en-US", "Heavy rain showers")]
  else if ws = Thunderstorm then [("sv-SE", "Åskoväder"), ("en-US", "Thunderstorm")]
  else if ws = LightSleetShowers then [("sv-SE", "Lätta regnskurar"), ("en-US", "Light sleet showers")]
  else if ws = ModerateSleetShowers then [("sv-SE", "Måttliga regnskurar"), ("en-US", "Moderate sleet showers")]
  else if ws = HeavySleetShowers then [("sv-SE", "Kraftiga regnskurar"), ("en-US", "Heavy sleet showers")]
  else if ws = LightSnowShowers then [("sv-SE", "Lätta snöbyar"), ("en-US", "Light snow showers")]
  else if ws = ModerateSnowShowers then [("sv-SE", "Måttliga snöbyar"), ("en-US", "Moderate snow showers")]
  else if ws = HeavySnowShowers then [("sv-SE", "Kraftiga snöbyar"), ("en-US", "Heavy snow showers")]
  else if ws = LightRain then [("sv-SE", "Duggregn"), ("en-US", "Light rain")]
  else if ws = ModerateRain then [("sv-SE", "Måttligt regn"), ("en-US", "Moderate rain")]
  else if ws = HeavyRain then [("sv-SE", "Kraftigt regn"), ("en-US", "Heavy rain")]
  else if ws = Thunder then [("sv-SE", "Åska"), ("en-US", "Thunder")]
  else if ws = LightSleet then [("sv-SE", "Lätt snöblandat regn"), ("en-US", "Light sleet")]
  else if ws = ModerateSleet then [("sv-SE", "Måttligt snöblandat regn"), ("en-US", "Moderate sleet")]
  else if ws = HeavySleet then [("sv-SE", "Kraftigt snöblandat regn"), ("en-US", "Heavy sleet")]
  else if ws = LightSnowfall then [("sv-SE", "Lätt snöfall"), ("en-US", "Light snowfall")]
  else if ws = ModerateSnowfall then [("sv-SE", "Måttligt snöfall"), ("en-US", "Moderate snowfall")]
  else if ws = HeavySnowfall then [("sv-SE", "Kraftigt snöfall"), ("en-US", "Heavy snowfall")]
  else []

/-- The parameter codes of the `switch p.Name` dispatch in
`toPointForecast` (smhi.go). -/
def knownParameterCodes : List String :=
  ["msl", "t", "vis", "wd", "ws", "r", "tstm", "tcc_mean", "lcc_mean",
   "mcc_mean", "hcc_mean", "gust", "pmin", "pmax", "spp", "pcat",
   "pmean", "pmedian", "Wsymb2"]

/-- One arm of the `switch p.Name` dispatch of `toPointForecast`
(smhi.go): a known code reads `p.Values[0]` (panicking when empty) and
assigns the matching field; an unknown code leaves the record
untouched. -/
def applyParam (f : Forecast) (p : ParameterAPI) : Except MapErr Forecast :=
  match p.name with
  | "msl" => (values0 p).map fun v => { f with airPressure := v }
  | "t" => (values0 p).map fun v => { f with airTemperature := v }
  | "vis" => (values0 p).map fun v => { f with horizontalVisibility := v }
  | "wd" => (values0 p).map fun v => { f with windDirection := goUint8 v }
  | "ws" => (values0 p).map fun v => { f with windSpeed := v }
  | "r" => (values0 p).map fun v => { f with relativeHumidity := goUint8 v }
  | "tstm" => (values0 p).map fun v => { f with thunderProbability := goUint8 v }
  | "tcc_mean" => (values0 p).map fun v => { f with meanValueOfTotalCloudCover := goUint8 v }
  | "lcc_mean" => (values0 p).map fun v => { f with meanValueOfLowLevelCloudCover := goUint8 v }
  | "mcc_mean" => (values0 p).map fun v => { f with meanValueOfMediumLevelCloudCover := goUint8 v }
  | "hcc_mean" => (values0 p).map fun v => { f with meanValueOfHighLevelCloudCover := goUint8 v }
  | "gust" => (values0 p).map fun v => { f with windGustSpeed := v }
  | "pmin" => (values0 p).map fun v => { f with minimumPrecipitationIntensity := v }
  | "pmax" => (values0 p).map fun v => { f with maximumPrecipitationIntensity := v }
  | "spp" => (values0 p).map fun v => { f with percentOfPrecipitationInFrozenForm := goInt8 v }
  | "pcat" => (values0 p).map fun v =>
      { f with precipitationCategory := ratTrunc v,
               precipitationCategoryDescription := getPrecipitationCategoryDescriptions (ratTrunc v) }
  | "pmean" => (values0 p).map fun v => { f with meanPrecipitationIntensity := v }
  | "pmedian" => (values0 p).map fun v => { f with medianPrecipitationIntensity := v }
  | "Wsymb2" => (values0 p).map fun v =>
      { f with weatherSymbol := ratTrunc v,
               weatherSymbolDescription := getWeatherSymbolDescription (ratTrunc v) }
  | _ => .ok f

/-- The inner `for _, p := range t.Parameters` loop of
`toPointForecast` (smhi.go), folding the parameter list into the
record. -/
def applyParams (f : Forecast) : List ParameterAPI → Except MapErr Forecast
  | [] => .ok f
  | p :: rest => do
    let f' ← applyParam f p
    applyParams f' rest

/-- One iteration of the outer `for _, t := range d.TimeSeries` loop of
`toPointForecast` (smhi.go).  Note: the source assigns the error of
`time.Parse(time.RFC3339, t.ValidTime)` to `err` but never checks it,
so a malformed `validTime` leaves the zero `time.Time` in the record
and the iteration continues. -/
def toForecast (t : TimeSeriesAPI) : Except MapErr Forecast :=
  applyParams
    { zeroForecast with timestamp := (parseRFC3339 t.validTime).getD zeroGoTime }
    t.parameters

/-- The outer loop of `toPointForecast` (smhi.go), appending one
`Forecast` per time-series entry in order of arrival. -/
def toForecastList : List TimeSeriesAPI → Except MapErr (List Forecast)
  | [] => .ok []
  | t :: rest => do
    let f ← toForecast t
    let fs ← toForecastList rest
    .ok (f :: fs)

/-- toPointForecast converts the `PointForecastAPI` object to a
`PointForecast` object (smhi.go): parse `approvedTime` and
`referenceTime` (returning the parse error on failure), copy the
geometry, and map the time series. -/
def toPointForecast (d : PointForecastAPI) : Except MapErr PointForecast :=
  match parseRFC3339 d.approvedTime with
  | none => .error (.timeParse d.approvedTime)
  | some approved =>
    match parseRFC3339 d.referenceTime with
    | none => .error (.timeParse d.referenceTime)
    | some reference =>
      (toForecastList d.timeSeries).map fun ts =>
        { approvedTime := approved, referenceTime := reference,
          geometry := { type := d.geometry.type, coordinates := d.geometry.coordinates },
          timeSeries := ts }

/-! ### Test fixtures -/

/-- A well-formed timestamp string used by concrete payloads. -/
def okStamp : String := "2020-01-02T03:04:05Z"

/-- The parse result of `okStamp`. -/
def okStampTime : GoTime :=
  { year := 2020, month := 1, day := 2, hour := 3, minute := 4, second := 5,
    nanos := 0, offsetMinutes := 0 }

/-- A concrete geometry used by concrete payloads. -/
def g0 : Geometry := { type := "Point", coordinates := [[16, 58]] }

/-- A payload with well-formed top-level timestamps and a single
time-series entry holding the given parameters. -/
def onePayload (ps : List ParameterAPI) : PointForecastAPI :=
  { approvedTime := okStamp, referenceTime := okStamp, geometry := g0,
    timeSeries := [{ validTime := okStamp, parameters := ps }] }

/-! ### Claim fixtures -/

/-- The C1 failing input: both top-level timestamps are well formed,
the only flaw is the malformed `validTime` of the single entry. -/
def badValidTimePayload : PointForecastAPI :=
  { approvedTime := okStamp, referenceTime := okStamp, geometry := g0,
    timeSeries := [{ validTime := "not-a-date",
                     parameters := [{ name := "t", unit := "C", values := [21] }] }] }

/-- The `PointForecast` that `toPointForecast` actually returns on
`badValidTimePayload`: full success, zero timestamp in the entry. -/
def badValidTimeResult : PointForecast :=
  { approvedTime := okStampTime, referenceTime := okStampTime, geometry := g0,
    timeSeries := [{ zeroForecast with timestamp := zeroGoTime, airTemperature := 21 }] }

/-- A payload exercising every narrow-integer field at once: the seven
unsigned 8-bit fields carry `v`, the signed 8-bit `spp` carries `w`. -/
def c3Payload (v w : Rat) : PointForecastAPI :=
  onePayload
    [{ name := "wd", unit := "", values := [v] },
     { name := "r", unit := "", values := [v] },
     { name := "tstm", unit := "", values := [v] },
     { name := "tcc_mean", unit := "", values := [v] },
     { name := "lcc_mean", unit := "", values := [v] },
     { name := "mcc_mean", unit := "", values := [v] },
     { name := "hcc_mean", unit := "", values := [v] },
     { name := "spp", unit := "", values := [w] }]

/-- The C4 panic input: a well-formed payload whose single entry holds
the known code `"wd"` with an empty values slice. -/
def wdEmptyPayload : PointForecastAPI :=
  onePayload [{ name := "wd", unit := "", values := [] }]

/-- A well-formed payload with one entry carrying `t` = 21. -/
def tPayload : PointForecastAPI :=
  onePayload [{ name := "t", unit := "Cel", values := [21] }]

/-- The single entry of `tPayload`, as a `TimeSeriesAPI` value. -/
def c7Entry : TimeSeriesAPI :=
  { validTime := okStamp, parameters := [{ name := "t", unit := "Cel", values := [21] }] }

/-- The `Forecast` produced from `c7Entry`. -/
def tEntry : Forecast :=
  { zeroForecast with timestamp := okStampTime, airTemperature := 21 }

/-- The `PointForecast` produced from `tPayload`. -/
def tResult : PointForecast :=
  { approvedTime := okStampTime, referenceTime := okStampTime, geometry := g0,
    timeSeries := [tEntry] }

/-! ### Claims C1, C2, C9, C5 -/

/-- C1: the spec says a malformed `validTime` in any time-series entry
makes the whole mapping fail with a timestamp-parse error.  The code
does fail on a malformed `approvedTime` or `referenceTime`, but the
error of parsing `validTime` is assigned to `err` and never checked
(smhi.go), so a payload whose only flaw is a malformed `validTime`
maps successfully: the entry keeps the zero timestamp and the full
`PointForecast` is returned with no error. -/
theorem c1_malformed_validTime_is_silently_ignored :
    toPointForecast { approvedTime := "not-a-date", referenceTime := okStamp,
                      geometry := g0, timeSeries := [] }
      = .error (.timeParse "not-a-date")
    ∧ toPointForecast { approvedTime := okStamp, referenceTime := "not-a-date",
                        geometry := g0, timeSeries := [] }
      = .error (.timeParse "not-a-date")
    ∧ toPointForecast badValidTimePayload = .ok badValidTimeResult :=
  ⟨rfl, rfl, rfl⟩

/-- `getPrecipitationCategoryDescriptions` misses for every code
outside 0–6. -/
theorem getPrecipitationCategoryDescriptions_out_of_range
    (pc : Int) (h : pc < 0 ∨ 6 < pc) :
    getPrecipitationCategoryDescriptions pc = [] := by
  unfold getPrecipitationCategoryDescriptions
  simp only [NoPrecipitation, Snow, SnowAndRain, Rain, Drizzle, FreezingRain,
    FreezingDrizzle]
  rw [if_neg (show ¬pc = 0 by omega), if_neg (show ¬pc = 1 by omega),
    if_neg (show ¬pc = 2 by omega), if_neg (show ¬pc = 3 by omega),
    if_neg (show ¬pc = 4 by omega), if_neg (show ¬pc = 5 by omega),
    if_neg (show ¬pc = 6 by omega)]

/-- `getWeatherSymbolDescription` misses for every code outside 1–27. -/
theorem getWeatherSymbolDescription_out_of_range
    (ws : Int) (h : ws < 1 ∨ 27 < ws) :
    getWeatherSymbolDescription ws = [] := by
  unfold getWeatherSymbolDescription
  simp only [ClearSky, NearlyClearSky, VariableCloudiness, HalfclearSky, CloudySky,
    Overcast, Fog, LightRainShowers, ModerateRainShowers, HeavyRainShowers,
    Thunderstorm, LightSleetShowers, ModerateSleetShowers, HeavySleetShowers,
    LightSnowShowers, ModerateSnowShowers, HeavySnowShowers, LightRain,
    ModerateRain, HeavyRain, Thunder, LightSleet, ModerateSleet, HeavySleet,
    LightSnowfall, ModerateSnowfall, HeavySnowfall]
  rw [if_neg (show ¬ws = 1 by omega), if_neg (show ¬ws = 2 by omega),
    if_neg (show ¬ws = 3 by omega), if_neg (show ¬ws = 4 by omega),
    if_neg (show ¬ws = 5 by omega), if_neg (show ¬ws = 6 by omega),
    if_neg (show ¬ws = 7 by omega), if_neg (show ¬ws = 8 by omega),
    if_neg (show ¬ws = 9 by omega), if_neg (show ¬ws = 10 by omega),
    if_neg (show ¬ws = 11 by omega), if_neg (show ¬ws = 12 by omega),
    if_neg (show ¬ws = 13 by omega), if_neg (show ¬ws = 14 by omega),
    if_neg (show ¬ws = 15 by omega), if_neg (show ¬ws = 16 by omega),
    if_neg (show ¬ws = 17 by omega), if_neg (show ¬ws = 18 by omega),
    if_neg (show ¬ws = 19 by omega), if_neg (show ¬ws = 20 by omega),
    if_neg (show ¬ws = 21 by omega), if_neg (show ¬ws = 22 by omega),
    if_neg (show ¬ws = 23 by omega), if_neg (show ¬ws = 24 by omega),
    if_neg (show ¬ws = 25 by omega), if_neg (show ¬ws = 26 by omega),
    if_neg (show ¬ws = 27 by omega)]

/-- C2: whenever a precipitation category or weather symbol has an
entry in the static description tables, the returned locale map uses
exactly the keys `"sv-SE"` and `"en-US"`, in that order, and no other
keys. -/
theorem c2_locale_keys_exactly_svSE_enUS :
    (∀ pc : PrecipitationCategory, getPrecipitationCategoryDescriptions pc ≠ [] →
      (getPrecipitationCategoryDescriptions pc).map Prod.fst = ["sv-SE", "en-US"])
    ∧ (∀ ws : WeatherSymbol, getWeatherSymbolDescription ws ≠ [] →
      (getWeatherSymbolDescription ws).map Prod.fst = ["sv-SE", "en-US"]) := by
  constructor
  · intro pc hpc
    by_cases hlo : pc < 0
    · exact absurd (getPrecipitationCategoryDescriptions_out_of_range pc (Or.inl hlo)) hpc
    by_cases hhi : 6 < pc
    · exact absurd (getPrecipitationCategoryDescriptions_out_of_range pc (Or.inr hhi)) hpc
    push_neg at hlo hhi
    interval_cases pc <;> rfl
  · intro ws hws
    by_cases hlo : ws < 1
    · exact absurd (getWeatherSymbolDescription_out_of_range ws (Or.inl hlo)) hws
    by_cases hhi : 27 < ws
    · exact absurd (getWeatherSymbolDescription_out_of_range ws (Or.inr hhi)) hws
    push_neg at hlo hhi
    interval_cases ws <;> rfl

/-- Witness for C2 at category 0 and symbol 1. -/
theorem c2_locale_keys_exactly_svSE_enUS_witness :
    (getPrecipitationCategoryDescriptions 0 ≠ []
      ∧ (getPrecipitationCategoryDescriptions 0).map Prod.fst = ["sv-SE", "en-US"])
    ∧ (getWeatherSymbolDescription 1 ≠ []
      ∧ (getWeatherSymbolDescription 1).map Prod.fst = ["sv-SE", "en-US"]) :=
  ⟨⟨by decide, c2_locale_keys_exactly_svSE_enUS.1 0 (by decide)⟩,
   ⟨by decide, c2_locale_keys_exactly_svSE_enUS.2 1 (by decide)⟩⟩

/-- C9: a `Wsymb2` parameter with value 1 yields the clear-sky
description pair, and value 27 yields the heavy-snowfall pair, through
the full mapper. -/
theorem c9_weather_symbol_1_and_27_descriptions :
    (toPointForecast (onePayload [{ name := "Wsymb2", unit := "", values := [1] }])).map
        (fun p => p.timeSeries.map Forecast.weatherSymbolDescription)
      = .ok [[("sv-SE", "Klar himmel"), ("en-US", "Clear sky")]]
    ∧ (toPointForecast (onePayload [{ name := "Wsymb2", unit := "", values := [27] }])).map
        (fun p => p.timeSeries.map Forecast.weatherSymbolDescription)
      = .ok [[("sv-SE", "Kraftigt snöfall"), ("en-US", "Heavy snowfall")]] :=
  ⟨rfl, rfl⟩

set_option maxHeartbeats 1000000 in
/-- C5: a `pcat` or `Wsymb2` value whose truncation lies outside the
documented code range (0–6 resp. 1–27) passes through without a range
check: the raw (truncated) number is stored in the enumeration field,
the attached description map is empty, and no error is signalled. -/
theorem c5_out_of_range_enum_codes_not_validated (v : Rat) :
    ((ratTrunc v < 0 ∨ 6 < ratTrunc v) →
      (toPointForecast (onePayload [{ name := "pcat", unit := "", values := [v] }])).map
          (fun p => p.timeSeries.map fun f =>
            (f.precipitationCategory, f.precipitationCategoryDescription))
        = .ok [(ratTrunc v, [])])
    ∧ ((ratTrunc v < 1 ∨ 27 < ratTrunc v) →
      (toPointForecast (onePayload [{ name := "Wsymb2", unit := "", values := [v] }])).map
          (fun p => p.timeSeries.map fun f =>
            (f.weatherSymbol, f.weatherSymbolDescription))
        = .ok [(ratTrunc v, [])]) := by
  constructor
  · intro h
    have hstep : (toPointForecast (onePayload [{ name := "pcat", unit := "", values := [v] }])).map
        (fun p => p.timeSeries.map fun f =>
          (f.precipitationCategory, f.precipitationCategoryDescription))
        = .ok [(ratTrunc v, getPrecipitationCategoryDescriptions (ratTrunc v))] := rfl
    rw [hstep, getPrecipitationCategoryDescriptions_out_of_range _ h]
  · intro h
    have hstep : (toPointForecast (onePayload [{ name := "Wsymb2", unit := "", values := [v] }])).map
        (fun p => p.timeSeries.map fun f =>
          (f.weatherSymbol, f.weatherSymbolDescription))
        = .ok [(ratTrunc v, getWeatherSymbolDescription (ratTrunc v))] := rfl
    rw [hstep, getWeatherSymbolDescription_out_of_range _ h]

/-- Witness for C5 at `pcat` = 7 and `Wsymb2` = 28. -/
theorem c5_out_of_range_enum_codes_not_validated_witness :
    ((ratTrunc 7 < 0 ∨ 6 < ratTrunc 7)
      ∧ (toPointForecast (onePayload [{ name := "pcat", unit := "", values := [7] }])).map
          (fun p => p.timeSeries.map fun f =>
            (f.precipitationCategory, f.precipitationCategoryDescription))
        = .ok [(ratTrunc 7, [])])
    ∧ ((ratTrunc 28 < 1 ∨ 27 < ratTrunc 28)
      ∧ (toPointForecast (onePayload [{ name := "Wsymb2", unit := "", values := [28] }])).map
          (fun p => p.timeSeries.map fun f =>
            (f.weatherSymbol, f.weatherSymbolDescription))
        = .ok [(ratTrunc 28, [])]) :=
  ⟨⟨by decide, (c5_out_of_range_enum_codes_not_validated 7).1 (by decide)⟩,
   ⟨by decide, (c5_out_of_range_enum_codes_not_validated 28).2 (by decide)⟩⟩

/-! ### Claims C3, C10 -/

set_option maxHeartbeats 2000000 in
/-- C3: every wire value routed to a narrow integer field is converted
by truncation toward zero followed by reduction modulo 2^8 (two's
complement for the signed `spp`), for all rational inputs, with no
range check and no error; the sample equalities show out-of-range
values wrapping around rather than failing. -/
theorem c3_narrow_integer_fields_truncate_and_wrap (v w : Rat) :
    (toPointForecast (c3Payload v w)).map (fun p => p.timeSeries.map fun f =>
        (f.windDirection, f.relativeHumidity, f.thunderProbability,
         f.meanValueOfTotalCloudCover, f.meanValueOfLowLevelCloudCover,
         f.meanValueOfMediumLevelCloudCover, f.meanValueOfHighLevelCloudCover,
         f.percentOfPrecipitationInFrozenForm))
      = .ok [(((ratTrunc v).emod 256).toNat, ((ratTrunc v).emod 256).toNat,
              ((ratTrunc v).emod 256).toNat, ((ratTrunc v).emod 256).toNat,
              ((ratTrunc v).emod 256).toNat, ((ratTrunc v).emod 256).toNat,
              ((ratTrunc v).emod 256).toNat, (ratTrunc w + 128).emod 256 - 128)]
    ∧ goUint8 300 = 44 ∧ goUint8 (-1) = 255 ∧ goInt8 (-129) = 127 ∧ goInt8 200 = -56 :=
  ⟨rfl, by decide, by decide, by decide, by decide⟩

/-- C10: the domain mapping is a deterministic, stateless function of
the decoded wire structure: two runs on the same input produce
structurally equal results (equal `PointForecast` on success, the same
error on failure). -/
theorem c10_mapping_is_deterministic :
    ∀ (d : PointForecastAPI) (r1 r2 : Except MapErr PointForecast),
      r1 = toPointForecast d → r2 = toPointForecast d → r1 = r2 := by
  intro d r1 r2 h1 h2
  rw [h1, h2]

/-- Witness for C10: one run evaluated explicitly, the other left as
the program text, shown equal. -/
theorem c10_mapping_is_deterministic_witness :
    Except.ok tResult = toPointForecast tPayload :=
  c10_mapping_is_deterministic tPayload (.ok tResult) (toPointForecast tPayload) rfl rfl

/-! ### Claim C8 -/

/-- The outer loop produces exactly one record per entry, in order. -/
theorem toForecastList_spec :
    ∀ (l : List TimeSeriesAPI) (fs : List Forecast),
      toForecastList l = .ok fs →
      fs.length = l.length ∧ ∀ i, i < l.length →
        ∃ t f, l[i]? = some t ∧ fs[i]? = some f ∧ toForecast t = .ok f := by
  intro l
  induction l with
  | nil =>
    intro fs h
    simp only [toForecastList] at h
    cases h
    simp
  | cons t rest ih =>
    intro fs h
    simp only [toForecastList] at h
    rcases ht : toForecast t with e | f
    · simp [ht, Bind.bind, Except.bind] at h
    · rcases hrest : toForecastList rest with e | fs'
      · simp [ht, hrest, Bind.bind, Except.bind] at h
      · simp [ht, hrest, Bind.bind, Except.bind] at h
        subst h
        obtain ⟨hlen, hidx⟩ := ih fs' hrest
        refine ⟨by simp [hlen], ?_⟩
        intro i hi
        cases i with
        | zero => exact ⟨t, f, by simp, by simp, ht⟩
        | succ j =>
          obtain ⟨t', f', h1, h2, h3⟩ := hidx j (by simpa using hi)
          exact ⟨t', f', by simpa using h1, by simpa using h2, h3⟩

/-- C8: on success the `PointForecast` holds exactly one `Forecast`
record per time-series entry, and the i-th record is produced from the
i-th entry — order of arrival, no re-sorting. -/
theorem c8_order_and_length_preserved :
    ∀ (d : PointForecastAPI) (p : PointForecast),
      toPointForecast d = .ok p →
      p.timeSeries.length = d.timeSeries.length ∧
      ∀ i, i < d.timeSeries.length →
        ∃ t f, d.timeSeries[i]? = some t ∧ p.timeSeries[i]? = some f
          ∧ toForecast t = .ok f := by
  intro d p h
  unfold toPointForecast at h
  split at h
  · exact absurd h (by simp)
  · split at h
    · exact absurd h (by simp)
    · rcases hl : toForecastList d.timeSeries with e | fs
      · rw [hl] at h
        simp [Except.map] at h
      · rw [hl] at h
        simp only [Except.map] at h
        cases h
        obtain ⟨hlen, hidx⟩ := toForecastList_spec d.timeSeries fs hl
        exact ⟨hlen, hidx⟩

/-- Witness for C8 at a one-entry payload. -/
theorem c8_order_and_length_preserved_witness :
    tResult.timeSeries.length = tPayload.timeSeries.length ∧
    ∀ i, i < tPayload.timeSeries.length →
      ∃ t f, tPayload.timeSeries[i]? = some t ∧ tResult.timeSeries[i]? = some f
        ∧ toForecast t = .ok f :=
  c8_order_and_length_preserved tPayload tResult rfl

/-! ### Claim C6 -/

/-- A parameter whose code is not in the dispatch table leaves the
record untouched. -/
theorem applyParam_unknown (f : Forecast) (p : ParameterAPI)
    (h : p.name ∉ knownParameterCodes) : applyParam f p = .ok f := by
  unfold applyParam
  split <;> simp_all [knownParameterCodes]

/-- Dropping an unknown-code parameter anywhere in the list does not
change the fold. -/
theorem applyParams_drop (p : ParameterAPI) (h : p.name ∉ knownParameterCodes) :
    ∀ (l₁ l₂ : List ParameterAPI) (f : Forecast),
      applyParams f (l₁ ++ p :: l₂) = applyParams f (l₁ ++ l₂) := by
  intro l₁
  induction l₁ with
  | nil =>
    intro l₂ f
    show applyParams f (p :: l₂) = applyParams f l₂
    simp [applyParams, applyParam_unknown f p h, Bind.bind, Except.bind]
  | cons q l₁ ih =>
    intro l₂ f
    show applyParams f (q :: (l₁ ++ p :: l₂)) = applyParams f (q :: (l₁ ++ l₂))
    simp only [applyParams]
    rcases hq : applyParam f q with e | f'
    · simp [Bind.bind, Except.bind]
    · simp [Bind.bind, Except.bind, ih]

/-- C6: a parameter whose name is not one of the known codes is
ignored: the `Forecast` produced from an entry equals the one produced
from the same entry with that parameter removed, wherever it occurs. -/
theorem c6_unknown_parameter_codes_ignored :
    ∀ (t : TimeSeriesAPI) (l₁ l₂ : List ParameterAPI) (p : ParameterAPI),
      p.name ∉ knownParameterCodes →
      toForecast { validTime := t.validTime, parameters := l₁ ++ p :: l₂ }
        = toForecast { validTime := t.validTime, parameters := l₁ ++ l₂ } := by
  intro t l₁ l₂ p h
  unfold toForecast
  exact applyParams_drop p h l₁ l₂ _

/-- Witness for C6: the unknown code `"xyz"` after a `t` parameter. -/
theorem c6_unknown_parameter_codes_ignored_witness :
    ({ name := "xyz", unit := "", values := [5] } : ParameterAPI).name ∉ knownParameterCodes
    ∧ toForecast { validTime := okStamp,
                   parameters := [{ name := "t", unit := "Cel", values := [21] }]
                     ++ { name := "xyz", unit := "", values := [5] } :: [] }
      = toForecast { validTime := okStamp,
                     parameters := [{ name := "t", unit := "Cel", values := [21] }] ++ [] } :=
  ⟨by decide,
   c6_unknown_parameter_codes_ignored { validTime := okStamp, parameters := [] }
     [{ name := "t", unit := "Cel", values := [21] }] []
     { name := "xyz", unit := "", values := [5] } (by decide)⟩

/-! ### Claim C4 -/

/-- A known-code parameter with an empty values slice makes the
dispatch arm hit `p.Values[0]` out of bounds. -/
theorem applyParam_known_empty (f : Forecast) (p : ParameterAPI)
    (hk : p.name ∈ knownParameterCodes) (hv : p.values = []) :
    applyParam f p = .error .panicIndexOutOfRange := by
  unfold applyParam
  split <;> simp_all [values0, knownParameterCodes, Except.map]

/-- The only abnormal outcome of a dispatch arm is the out-of-bounds
panic. -/
theorem applyParam_error_is_panic (f : Forecast) (p : ParameterAPI) (e : MapErr)
    (h : applyParam f p = .error e) : e = .panicIndexOutOfRange := by
  unfold applyParam at h
  split at h <;>
    rcases hval : p.values with _ | ⟨v, vs⟩ <;>
    simp_all [values0, Except.map]

/-- The only abnormal outcome of the parameter fold is the
out-of-bounds panic. -/
theorem applyParams_error_is_panic :
    ∀ (l : List ParameterAPI) (f : Forecast) (e : MapErr),
      applyParams f l = .error e → e = .panicIndexOutOfRange := by
  intro l
  induction l with
  | nil =>
    intro f e h
    simp [applyParams] at h
  | cons p rest ih =>
    intro f e h
    rcases hp : applyParam f p with e' | f1
    · have hpe := applyParam_error_is_panic f p e' hp
      simp only [applyParams] at h
      rw [hp] at h
      simp only [Bind.bind, Except.bind, Except.error.injEq] at h
      rw [← h]
      exact hpe
    · simp only [applyParams] at h
      rw [hp] at h
      simp only [Bind.bind, Except.bind] at h
      exact ih f1 e h

/-- Any parameter list containing a known-code parameter with an empty
values slice drives the fold into the panic outcome. -/
theorem applyParams_panics :
    ∀ (l : List ParameterAPI) (f : Forecast),
      (∃ p ∈ l, p.name ∈ knownParameterCodes ∧ p.values = []) →
      applyParams f l = .error .panicIndexOutOfRange := by
  intro l
  induction l with
  | nil =>
    intro f h
    simp at h
  | cons q rest ih =>
    intro f h
    obtain ⟨p, hmem, hk, hv⟩ := h
    rcases List.mem_cons.mp hmem with rfl | hmem'
    · simp only [applyParams]
      rw [applyParam_known_empty f p hk hv]
      rfl
    · rcases hq : applyParam f q with e' | f1
      · have hqe := applyParam_error_is_panic f q e' hq
        subst hqe
        simp only [applyParams]
        rw [hq]
        rfl
      · simp only [applyParams]
        rw [hq]
        simp only [Bind.bind, Except.bind]
        exact ih f1 ⟨p, hmem', hk, hv⟩

/-- Any entry list in which some entry holds a known-code parameter
with an empty values slice drives the outer loop into the panic
outcome. -/
theorem toForecastList_panics :
    ∀ (l : List TimeSeriesAPI),
      (∃ t ∈ l, ∃ p ∈ t.parameters, p.name ∈ knownParameterCodes ∧ p.values = []) →
      toForecastList l = .error .panicIndexOutOfRange := by
  intro l
  induction l with
  | nil =>
    intro h
    simp at h
  | cons u rest ih =>
    intro h
    obtain ⟨t, hmem, hp⟩ := h
    rcases List.mem_cons.mp hmem with rfl | hmem'
    · have ht : toForecast t = .error .panicIndexOutOfRange := by
        unfold toForecast
        exact applyParams_panics t.parameters _ hp
      simp only [toForecastList]
      rw [ht]
      rfl
    · rcases hu : toForecast u with e' | f1
      · have hue : e' = .panicIndexOutOfRange := by
          unfold toForecast at hu
          exact applyParams_error_is_panic u.parameters _ e' hu
        subst hue
        simp only [toForecastList]
        rw [hu]
        rfl
      · simp only [toForecastList]
        rw [hu]
        simp only [Bind.bind, Except.bind]
        rw [ih ⟨t, hmem', hp⟩]

/-- A dispatch arm succeeds whenever a known-code parameter carries a
non-empty values slice (unknown codes never touch the slice). -/
theorem applyParam_ok_exists (f : Forecast) (p : ParameterAPI)
    (hv : p.name ∈ knownParameterCodes → p.values ≠ []) :
    ∃ f', applyParam f p = .ok f' := by
  unfold applyParam
  split <;>
    first
      | exact ⟨f, rfl⟩
      | (rename_i heq
         rcases hval : p.values with _ | ⟨v, vs⟩
         · exact absurd hval (hv (by rw [heq]; decide))
         · simp [values0, hval, Except.map])

/-- The parameter fold succeeds when every known-code parameter
carries a non-empty values slice. -/
theorem applyParams_ok_exists :
    ∀ (l : List ParameterAPI) (f : Forecast),
      (∀ p ∈ l, p.name ∈ knownParameterCodes → p.values ≠ []) →
      ∃ f', applyParams f l = .ok f' := by
  intro l
  induction l with
  | nil => exact fun f _ => ⟨f, rfl⟩
  | cons p rest ih =>
    intro f hall
    obtain ⟨f1, h1⟩ := applyParam_ok_exists f p (hall p (List.mem_cons_self p rest))
    obtain ⟨f2, h2⟩ := ih f1 (fun q hq => hall q (List.mem_cons_of_mem p hq))
    refine ⟨f2, ?_⟩
    simp only [applyParams]
    rw [h1]
    simpa [Bind.bind, Except.bind] using h2

/-- The outer loop succeeds when every known-code parameter of every
entry carries a non-empty values slice. -/
theorem toForecastList_ok_exists :
    ∀ (l : List TimeSeriesAPI),
      (∀ t ∈ l, ∀ p ∈ t.parameters, p.name ∈ knownParameterCodes → p.values ≠ []) →
      ∃ fs, toForecastList l = .ok fs := by
  intro l
  induction l with
  | nil => exact fun _ => ⟨[], rfl⟩
  | cons t rest ih =>
    intro hall
    obtain ⟨f, hf⟩ :=
      applyParams_ok_exists t.parameters
        { zeroForecast with timestamp := (parseRFC3339 t.validTime).getD zeroGoTime }
        (hall t (List.mem_cons_self t rest))
    obtain ⟨fs, hfs⟩ := ih (fun u hu => hall u (List.mem_cons_of_mem t hu))
    refine ⟨f :: fs, ?_⟩
    simp only [toForecastList]
    rw [show toForecast t = .ok f from hf, hfs]
    rfl

/-- C4: for every payload whose top-level timestamps parse, if any
time-series entry contains a parameter with a known code and an empty
values slice, the mapper hits `p.Values[0]` out of bounds — a Go
runtime panic, modelled as the `panicIndexOutOfRange` outcome; and
under the unchecked precondition that every known-code parameter
carries a non-empty values slice the mapper is total. -/
theorem c4_empty_values_slice_panics :
    (∀ d : PointForecastAPI,
        (parseRFC3339 d.approvedTime).isSome = true →
        (parseRFC3339 d.referenceTime).isSome = true →
        (∃ t ∈ d.timeSeries, ∃ p ∈ t.parameters,
          p.name ∈ knownParameterCodes ∧ p.values = []) →
        toPointForecast d = .error .panicIndexOutOfRange)
    ∧ (∀ d : PointForecastAPI,
        (parseRFC3339 d.approvedTime).isSome = true →
        (parseRFC3339 d.referenceTime).isSome = true →
        (∀ t ∈ d.timeSeries, ∀ p ∈ t.parameters,
          p.name ∈ knownParameterCodes → p.values ≠ []) →
        ∃ pf, toPointForecast d = .ok pf) := by
  constructor
  · intro d h1 h2 hex
    rw [Option.isSome_iff_exists] at h1 h2
    obtain ⟨a, ha⟩ := h1
    obtain ⟨r, hr⟩ := h2
    unfold toPointForecast
    rw [ha, hr, toForecastList_panics d.timeSeries hex]
    rfl
  · intro d h1 h2 h3
    rw [Option.isSome_iff_exists] at h1 h2
    obtain ⟨a, ha⟩ := h1
    obtain ⟨r, hr⟩ := h2
    obtain ⟨fs, hfs⟩ := toForecastList_ok_exists d.timeSeries h3
    refine ⟨{ approvedTime := a, referenceTime := r,
              geometry := { type := d.geometry.type, coordinates := d.geometry.coordinates },
              timeSeries := fs }, ?_⟩
    unfold toPointForecast
    rw [ha, hr, hfs]
    rfl

/-- Witness for C4: the panic at `wdEmptyPayload`, and totality at
`tPayload`. -/
theorem c4_empty_values_slice_panics_witness :
    ((parseRFC3339 wdEmptyPayload.approvedTime).isSome = true
      ∧ (parseRFC3339 wdEmptyPayload.referenceTime).isSome = true
      ∧ (∃ t ∈ wdEmptyPayload.timeSeries, ∃ p ∈ t.parameters,
          p.name ∈ knownParameterCodes ∧ p.values = [])
      ∧ toPointForecast wdEmptyPayload = .error .panicIndexOutOfRange)
    ∧ ((parseRFC3339 tPayload.approvedTime).isSome = true
      ∧ (parseRFC3339 tPayload.referenceTime).isSome = true
      ∧ (∀ t ∈ tPayload.timeSeries, ∀ p ∈ t.parameters,
          p.name ∈ knownParameterCodes → p.values ≠ [])
      ∧ ∃ pf, toPointForecast tPayload = .ok pf) := by
  refine ⟨⟨rfl, rfl, by decide, ?_⟩, rfl, rfl, by decide, ?_⟩
  · exact c4_empty_values_slice_panics.1 wdEmptyPayload rfl rfl (by decide)
  · exact c4_empty_values_slice_panics.2 tPayload rfl rfl (by decide)

/-! ### Claim C7 -/

/-- Frame property of one dispatch arm: a parameter whose code is not
the one owning a field leaves that field unchanged. -/
theorem applyParam_frame (f f' : Forecast) (p : ParameterAPI)
    (h : applyParam f p = .ok f') :
    (p.name ≠ "msl" → f'.airPressure = f.airPressure)
    ∧ (p.name ≠ "t" → f'.airTemperature = f.airTemperature)
    ∧ (p.name ≠ "vis" → f'.horizontalVisibility = f.horizontalVisibility)
    ∧ (p.name ≠ "wd" → f'.windDirection = f.windDirection)
    ∧ (p.name ≠ "ws" → f'.windSpeed = f.windSpeed)
    ∧ (p.name ≠ "r" → f'.relativeHumidity = f.relativeHumidity)
    ∧ (p.name ≠ "tstm" → f'.thunderProbability = f.thunderProbability)
    ∧ (p.name ≠ "tcc_mean" → f'.meanValueOfTotalCloudCover = f.meanValueOfTotalCloudCover)
    ∧ (p.name ≠ "lcc_mean" → f'.meanValueOfLowLevelCloudCover = f.meanValueOfLowLevelCloudCover)
    ∧ (p.name ≠ "mcc_mean" → f'.meanValueOfMediumLevelCloudCover = f.meanValueOfMediumLevelCloudCover)
    ∧ (p.name ≠ "hcc_mean" → f'.meanValueOfHighLevelCloudCover = f.meanValueOfHighLevelCloudCover)
    ∧ (p.name ≠ "gust" → f'.windGustSpeed = f.windGustSpeed)
    ∧ (p.name ≠ "pmin" → f'.minimumPrecipitationIntensity = f.minimumPrecipitationIntensity)
    ∧ (p.name ≠ "pmax" → f'.maximumPrecipitationIntensity = f.maximumPrecipitationIntensity)
    ∧ (p.name ≠ "spp" → f'.percentOfPrecipitationInFrozenForm = f.percentOfPrecipitationInFrozenForm)
    ∧ (p.name ≠ "pcat" → (f'.precipitationCategory, f'.precipitationCategoryDescription) = (f.precipitationCategory, f.precipitationCategoryDescription))
    ∧ (p.name ≠ "pmean" → f'.meanPrecipitationIntensity = f.meanPrecipitationIntensity)
    ∧ (p.name ≠ "pmedian" → f'.medianPrecipitationIntensity = f.medianPrecipitationIntensity)
    ∧ (p.name ≠ "Wsymb2" → (f'.weatherSymbol, f'.weatherSymbolDescription) = (f.weatherSymbol, f.weatherSymbolDescription)) := by
  unfold applyParam at h
  split at h <;>
    rcases hval : p.values with _ | ⟨v, vs⟩ <;>
    simp only [values0, hval, Except.map, reduceCtorEq, Except.ok.injEq] at h <;>
    (try subst h) <;>
    simp_all

/-- A projection of the record is invariant under the parameter fold
when every step preserves it. -/
theorem applyParams_proj_invariant {α : Type} (proj : Forecast → α) (bad : String)
    (hstep : ∀ (f f' : Forecast) (p : ParameterAPI), p.name ≠ bad →
      applyParam f p = .ok f' → proj f' = proj f) :
    ∀ (l : List ParameterAPI) (f f' : Forecast), (∀ p ∈ l, p.name ≠ bad) →
      applyParams f l = .ok f' → proj f' = proj f := by
  intro l
  induction l with
  | nil =>
    intro f f' _ h
    simp only [applyParams, Except.ok.injEq] at h
    subst h
    rfl
  | cons p rest ih =>
    intro f f' hall h
    rcases hp : applyParam f p with e | f1
    · simp [applyParams, hp, Bind.bind, Except.bind] at h
    · simp only [applyParams] at h
      rw [hp] at h
      simp only [Bind.bind, Except.bind] at h
      have h1 := ih f1 f' (fun q hq => hall q (List.mem_cons_of_mem p hq)) h
      rw [h1, hstep f f1 p (hall p (List.mem_cons_self p rest)) hp]

/-- C7: for every time-series entry mapped successfully and every known
parameter code that does not occur in the entry's parameter list, the
corresponding field of the resulting `Forecast` record keeps its type's
zero value (for `pcat` and `Wsymb2` this includes the nil description
map); absence is a silent default, not an error. -/
theorem c7_missing_known_codes_leave_zero_values (t : TimeSeriesAPI) (f : Forecast)
    (h : toForecast t = .ok f) :
    ((∀ p ∈ t.parameters, p.name ≠ "msl") → f.airPressure = 0)
    ∧ ((∀ p ∈ t.parameters, p.name ≠ "t") → f.airTemperature = 0)
    ∧ ((∀ p ∈ t.parameters, p.name ≠ "vis") → f.horizontalVisibility = 0)
    ∧ ((∀ p ∈ t.parameters, p.name ≠ "wd") → f.windDirection = 0)
    ∧ ((∀ p ∈ t.parameters, p.name ≠ "ws") → f.windSpeed = 0)
    ∧ ((∀ p ∈ t.parameters, p.name ≠ "r") → f.relativeHumidity = 0)
    ∧ ((∀ p ∈ t.parameters, p.name ≠ "tstm") → f.thunderProbability = 0)
    ∧ ((∀ p ∈ t.parameters, p.name ≠ "tcc_mean") → f.meanValueOfTotalCloudCover = 0)
    ∧ ((∀ p ∈ t.parameters, p.name ≠ "lcc_mean") → f.meanValueOfLowLevelCloudCover = 0)
    ∧ ((∀ p ∈ t.parameters, p.name ≠ "mcc_mean") → f.meanValueOfMediumLevelCloudCover = 0)
    ∧ ((∀ p ∈ t.parameters, p.name ≠ "hcc_mean") → f.meanValueOfHighLevelCloudCover = 0)
    ∧ ((∀ p ∈ t.parameters, p.name ≠ "gust") → f.windGustSpeed = 0)
    ∧ ((∀ p ∈ t.parameters, p.name ≠ "pmin") → f.minimumPrecipitationIntensity = 0)
    ∧ ((∀ p ∈ t.parameters, p.name ≠ "pmax") → f.maximumPrecipitationIntensity = 0)
    ∧ ((∀ p ∈ t.parameters, p.name ≠ "spp") → f.percentOfPrecipitationInFrozenForm = 0)
    ∧ ((∀ p ∈ t.parameters, p.name ≠ "pcat") → f.precipitationCategory = 0 ∧ f.precipitationCategoryDescription = [])
    ∧ ((∀ p ∈ t.parameters, p.name ≠ "pmean") → f.meanPrecipitationIntensity = 0)
    ∧ ((∀ p ∈ t.parameters, p.name ≠ "pmedian") → f.medianPrecipitationIntensity = 0)
    ∧ ((∀ p ∈ t.parameters, p.name ≠ "Wsymb2") → f.weatherSymbol = 0 ∧ f.weatherSymbolDescription = []) := by
  unfold toForecast at h
  refine ⟨?_, ?_, ?_, ?_, ?_, ?_, ?_, ?_, ?_, ?_, ?_, ?_, ?_, ?_, ?_, ?_, ?_, ?_, ?_⟩
  · intro hall
    have hinv := applyParams_proj_invariant (fun g => g.airPressure) "msl"
      (fun a b q hne hq => (applyParam_frame a b q hq).1 hne) t.parameters _ f hall h
    simpa [zeroForecast] using hinv
  · intro hall
    have hinv := applyParams_proj_invariant (fun g => g.airTemperature) "t"
      (fun a b q hne hq => (applyParam_frame a b q hq).2.1 hne) t.parameters _ f hall h
    simpa [zeroForecast] using hinv
  · intro hall
    have hinv := applyParams_proj_invariant (fun g => g.horizontalVisibility) "vis"
      (fun a b q hne hq => (applyParam_frame a b q hq).2.2.1 hne) t.parameters _ f hall h
    simpa [zeroForecast] using hinv
  · intro hall
    have hinv := applyParams_proj_invariant (fun g => g.windDirection) "wd"
      (fun a b q hne hq => (applyParam_frame a b q hq).2.2.2.1 hne) t.parameters _ f hall h
    simpa [zeroForecast] using hinv
  · intro hall
    have hinv := applyParams_proj_invariant (fun g => g.windSpeed) "ws"
      (fun a b q hne hq => (applyParam_frame a b q hq).2.2.2.2.1 hne) t.parameters _ f hall h
    simpa [zeroForecast] using hinv
  · intro hall
    have hinv := applyParams_proj_invariant (fun g => g.relativeHumidity) "r"
      (fun a b q hne hq => (applyParam_frame a b q hq).2.2.2.2.2.1 hne) t.parameters _ f hall h
    simpa [zeroForecast] using hinv
  · intro hall
    have hinv := applyParams_proj_invariant (fun g => g.thunderProbability) "tstm"
      (fun a b q hne hq => (applyParam_frame a b q hq).2.2.2.2.2.2.1 hne) t.parameters _ f hall h
    simpa [zeroForecast] using hinv
  · intro hall
    have hinv := applyParams_proj_invariant (fun g => g.meanValueOfTotalCloudCover) "tcc_mean"
      (fun a b q hne hq => (applyParam_frame a b q hq).2.2.2.2.2.2.2.1 hne) t.parameters _ f hall h
    simpa [zeroForecast] using hinv
  · intro hall
    have hinv := applyParams_proj_invariant (fun g => g.meanValueOfLowLevelCloudCover) "lcc_mean"
      (fun a b q hne hq => (applyParam_frame a b q hq).2.2.2.2.2.2.2.2.1 hne) t.parameters _ f hall h
    simpa [zeroForecast] using hinv
  · intro hall
    have hinv := applyParams_proj_invariant (fun g => g.meanValueOfMediumLevelCloudCover) "mcc_mean"
      (fun a b q hne hq => (applyParam_frame a b q hq).2.2.2.2.2.2.2.2.2.1 hne) t.parameters _ f hall h
    simpa [zeroForecast] using hinv
  · intro hall
    have hinv := applyParams_proj_invariant (fun g => g.meanValueOfHighLevelCloudCover) "hcc_mean"
      (fun a b q hne hq => (applyParam_frame a b q hq).2.2.2.2.2.2.2.2.2.2.1 hne) t.parameters _ f hall h
    simpa [zeroForecast] using hinv
  · intro hall
    have hinv := applyParams_proj_invariant (fun g => g.windGustSpeed) "gust"
      (fun a b q hne hq => (applyParam_frame a b q hq).2.2.2.2.2.2.2.2.2.2.2.1 hne) t.parameters _ f hall h
    simpa [zeroForecast] using hinv
  · intro hall
    have hinv := applyParams_proj_invariant (fun g => g.minimumPrecipitationIntensity) "pmin"
      (fun a b q hne hq => (applyParam_frame a b q hq).2.2.2.2.2.2.2.2.2.2.2.2.1 hne) t.parameters _ f hall h
    simpa [zeroForecast] using hinv
  · intro hall
    have hinv := applyParams_proj_invariant (fun g => g.maximumPrecipitationIntensity) "pmax"
      (fun a b q hne hq => (applyParam_frame a b q hq).2.2.2.2.2.2.2.2.2.2.2.2.2.1 hne) t.parameters _ f hall h
    simpa [zeroForecast] using hinv
  · intro hall
    have hinv := applyParams_proj_invariant (fun g => g.percentOfPrecipitationInFrozenForm) "spp"
      (fun a b q hne hq => (applyParam_frame a b q hq).2.2.2.2.2.2.2.2.2.2.2.2.2.2.1 hne) t.parameters _ f hall h
    simpa [zeroForecast] using hinv
  · intro hall
    have hinv := applyParams_proj_invariant
      (fun g => (g.precipitationCategory, g.precipitationCategoryDescription)) "pcat"
      (fun a b q hne hq => (applyParam_frame a b q hq).2.2.2.2.2.2.2.2.2.2.2.2.2.2.2.1 hne) t.parameters _ f hall h
    simpa [zeroForecast, Prod.ext_iff] using hinv
  · intro hall
    have hinv := applyParams_proj_invariant (fun g => g.meanPrecipitationIntensity) "pmean"
      (fun a b q hne hq => (applyParam_frame a b q hq).2.2.2.2.2.2.2.2.2.2.2.2.2.2.2.2.1 hne) t.parameters _ f hall h
    simpa [zeroForecast] using hinv
  · intro hall
    have hinv := applyParams_proj_invariant (fun g => g.medianPrecipitationIntensity) "pmedian"
      (fun a b q hne hq => (applyParam_frame a b q hq).2.2.2.2.2.2.2.2.2.2.2.2.2.2.2.2.2.1 hne) t.parameters _ f hall h
    simpa [zeroForecast] using hinv
  · intro hall
    have hinv := applyParams_proj_invariant
      (fun g => (g.weatherSymbol, g.weatherSymbolDescription)) "Wsymb2"
      (fun a b q hne hq => (applyParam_frame a b q hq).2.2.2.2.2.2.2.2.2.2.2.2.2.2.2.2.2.2 hne) t.parameters _ f hall h
    simpa [zeroForecast, Prod.ext_iff] using hinv

/-- Witness for C7 at a concrete single-parameter entry. -/
theorem c7_missing_known_codes_leave_zero_values_witness :
    ((∀ p ∈ c7Entry.parameters, p.name ≠ "msl") → tEntry.airPressure = 0)
    ∧ ((∀ p ∈ c7Entry.parameters, p.name ≠ "t") → tEntry.airTemperature = 0)
    ∧ ((∀ p ∈ c7Entry.parameters, p.name ≠ "vis") → tEntry.horizontalVisibility = 0)
    ∧ ((∀ p ∈ c7Entry.parameters, p.name ≠ "wd") → tEntry.windDirection = 0)
    ∧ ((∀ p ∈ c7Entry.parameters, p.name ≠ "ws") → tEntry.windSpeed = 0)
    ∧ ((∀ p ∈ c7Entry.parameters, p.name ≠ "r") → tEntry.relativeHumidity = 0)
    ∧ ((∀ p ∈ c7Entry.parameters, p.name ≠ "tstm") → tEntry.thunderProbability = 0)
    ∧ ((∀ p ∈ c7Entry.parameters, p.name ≠ "tcc_mean") → tEntry.meanValueOfTotalCloudCover = 0)
    ∧ ((∀ p ∈ c7Entry.parameters, p.name ≠ "lcc_mean") → tEntry.meanValueOfLowLevelCloudCover = 0)
    ∧ ((∀ p ∈ c7Entry.parameters, p.name ≠ "mcc_mean") → tEntry.meanValueOfMediumLevelCloudCover = 0)
    ∧ ((∀ p ∈ c7Entry.parameters, p.name ≠ "hcc_mean") → tEntry.meanValueOfHighLevelCloudCover = 0)
    ∧ ((∀ p ∈ c7Entry.parameters, p.name ≠ "gust") → tEntry.windGustSpeed = 0)
    ∧ ((∀ p ∈ c7Entry.parameters, p.name ≠ "pmin") → tEntry.minimumPrecipitationIntensity = 0)
    ∧ ((∀ p ∈ c7Entry.parameters, p.name ≠ "pmax") → tEntry.maximumPrecipitationIntensity = 0)
    ∧ ((∀ p ∈ c7Entry.parameters, p.name ≠ "spp") → tEntry.percentOfPrecipitationInFrozenForm = 0)
    ∧ ((∀ p ∈ c7Entry.parameters, p.name ≠ "pcat") → tEntry.precipitationCategory = 0 ∧ tEntry.precipitationCategoryDescription = [])
    ∧ ((∀ p ∈ c7Entry.parameters, p.name ≠ "pmean") → tEntry.meanPrecipitationIntensity = 0)
    ∧ ((∀ p ∈ c7Entry.parameters, p.name ≠ "pmedian") → tEntry.medianPrecipitationIntensity = 0)
    ∧ ((∀ p ∈ c7Entry.parameters, p.name ≠ "Wsymb2") → tEntry.weatherSymbol = 0 ∧ tEntry.weatherSymbolDescription = []) :=
  c7_missing_known_codes_leave_zero_values c7Entry tEntry rfl

end Smhi
